import Mathlib

/-!
Shallow embedding of the two Lambda handlers of the drift-detection
prerequisite stack:

* `src/prereq-stack/lambda/drift-detect-lambda/index.ts` — the scan
  initiator invoked by CodePipeline (`driftDetect.handler` below);
* `src/prereq-stack/lambda/callback-lambda/index.ts` — the completion
  handler invoked by the EventBridge drift-status-change event
  (`callback.handler` below).

External effects are made explicit:

* The DynamoDB correlation table (partition key `pk`, sort key `sk`,
  per `stack.ts`) is a list of items; `putItem` replaces the item with
  the same full primary key `(pk, sk)`, `getItem` finds by `(pk, sk)`.
* Pipeline callbacks (`putJobSuccessResult` / `putJobFailureResult`)
  are collected in an output list, in call order.
* The outcomes of the AWS SDK calls made by the initiator
  (`describeStacks`, `detectStackDrift`, DynamoDB `putItem`) are an
  environment record: each is called at most once per invocation.
* A caught DynamoDB `getItem` error in the completion handler leaves
  `jobId` undefined, indistinguishable from an absent item, so the
  store read is modelled as returning `Option`.
-/

/-- A JavaScript error value as the handlers inspect it: `err.name`,
`err.Code` (an AWS SDK field, absent on plain errors) and `err.message`. -/
structure JsError where
  name : String
  code : Option String
  message : String
deriving Repr, DecidableEq

/-- `err.name == 'ValidationError' || err.Code == 'ValidationError'`. -/
def JsError.isValidationError (e : JsError) : Bool :=
  e.name == "ValidationError" || e.code == some "ValidationError"

/-- Model of `JSON.stringify(err)` used for failure messages: an opaque
rendering that carries the error's name and message. -/
def stringifyErr (e : JsError) : String :=
  e.name ++ ": " ++ e.message

/-- `new Error(message)` has `name` `'Error'` and no AWS `Code` field. -/
def jsNewError (message : String) : JsError :=
  { name := "Error", code := none, message := message }

/-- One item of the DynamoDB correlation table: attributes `pk`, `sk`
and `pipeline_job_id` as written by the initiator. -/
structure DdbItem where
  pk : String
  sk : String
  pipeline_job_id : String
deriving Repr, DecidableEq

/-- The correlation table's contents. -/
def Store := List DdbItem

instance : DecidableEq Store := inferInstanceAs (DecidableEq (List DdbItem))

/-- DynamoDB `putItem`: unconditional put replacing the item with the
same full primary key `(pk, sk)` (the table has partition key `pk` and
sort key `sk`). -/
def putItem (s : Store) (it : DdbItem) : Store :=
  it :: List.filter (fun x => !(x.pk == it.pk && x.sk == it.sk)) s

/-- DynamoDB `getItem` by full primary key `(pk, sk)`. -/
def getItem (s : Store) (pk sk : String) : Option DdbItem :=
  List.find? (fun x => x.pk == pk && x.sk == sk) s

/-- A callback sent to CodePipeline: `putJobSuccessResult(jobId)` or
`putJobFailureResult(jobId, message)` (the `type` is always
`'JobFailed'` and is left implicit). -/
inductive Callback where
  | success (jobId : String)
  | failure (jobId : String) (message : String)
deriving Repr, DecidableEq

/-! JavaScript string splitting, as used by `extractStackNameFromArn`.
`String.prototype.split` with a one-character separator splits at every
occurrence, keeps empty segments, and always returns a non-empty array. -/

/-- `text.split(sep)` on the character list of the string. -/
def splitChar (sep : Char) : List Char → List (List Char)
  | [] => [[]]
  | c :: cs =>
    let rest := splitChar sep cs
    if c = sep then [] :: rest
    else
      match rest with
      | r :: rs => (c :: r) :: rs
      | [] => [[c]]

/-- `s.split(sep)` for a one-character separator. -/
def jsSplit (s : String) (sep : Char) : List String :=
  (splitChar sep s.data).map String.mk

namespace callback

/-- `event['detail']['status-details']` of the drift-status-change event. -/
structure StatusDetails where
  stack_drift_status : String
deriving Repr, DecidableEq

/-- `event['detail']` of the drift-status-change event. -/
structure EventDetail where
  stack_id : String
  stack_drift_detection_id : String
  status_details : StatusDetails
deriving Repr, DecidableEq

/-- The inbound EventBridge event, with the fields the handler reads
(`detail-type` is spelled `detail_type`). -/
structure ScanEvent where
  detail_type : String
  account : String
  region : String
  detail : EventDetail
deriving Repr, DecidableEq

/-- `extractStackNameFromArn`: split the ARN on `':'`, `pop()` the last
segment, split that on `'/'` and take index `1`. `none` models the
JavaScript `undefined` produced when the last segment has no second
slash-delimited part (index out of range); the `: ''` fallback of the
source is unreachable since `split` never returns a falsy value. -/
def extractStackNameFromArn (stackArn : String) : Option String :=
  let stackItems := jsSplit stackArn ':'
  match stackItems.getLast? with
  | some stackId => (jsSplit stackId '/').get? 1
  | none => some ""

/-- Template-literal interpolation of a possibly-undefined string. -/
def jsInterp (o : Option String) : String :=
  match o with
  | some s => s
  | none => "undefined"

/-- `fetchCallbackDetails`: derive the partition key
`account#region#stackName`, `getItem` with sort key the event's
`stack-drift-detection-id`, and return the item's `pipeline_job_id`.
A caught `getItem` error or an absent item both leave the result
undefined (`none`). -/
def fetchCallbackDetails (ev : ScanEvent) (store : Store) : Option String :=
  let stackName := jsInterp (extractStackNameFromArn ev.detail.stack_id)
  let pk := ev.account ++ "#" ++ ev.region ++ "#" ++ stackName
  match getItem store pk ev.detail.stack_drift_detection_id with
  | some item => some item.pipeline_job_id
  | none => none

/-- The completion handler. Returns the pipeline callbacks it sends and
the (unchanged — it never writes) store. `if (jobId)` is JavaScript
truthiness: the branch is taken when `fetchCallbackDetails` produced a
non-empty string. -/
def handler (ev : ScanEvent) (store : Store) : List Callback × Store :=
  if ev.detail_type == "CloudFormation Drift Detection Status Change" then
    match fetchCallbackDetails ev store with
    | some jobId =>
      if jobId ≠ "" then
        if ev.detail.status_details.stack_drift_status == "DRIFTED" then
          ([Callback.failure jobId
              ("Stack " ++ ev.detail.stack_id ++
                " has DRIFTED from its template configuration")], store)
        else if ev.detail.status_details.stack_drift_status == "IN_SYNC" then
          ([Callback.success jobId], store)
        else
          ([], store)
      else
        ([], store)
    | none => ([], store)
  else
    ([], store)

end callback

namespace driftDetect

/-- The `UserParameters` payload parsed from the CodePipeline job:
`account`, `region` and `stackName`. -/
structure UserParams where
  account : String
  region : String
  stackName : String
deriving Repr, DecidableEq

/-- One entry of `DescribeStacksCommandOutput.Stacks`; the SDK declares
both `StackName` and `StackStatus` optional. -/
structure StackInfo where
  StackName : Option String
  StackStatus : Option String
deriving Repr, DecidableEq

/-- `DescribeStacksCommandOutput`; `Stacks` is optional. -/
structure DescribeStacksOutput where
  Stacks : Option (List StackInfo)
deriving Repr, DecidableEq

/-- `DetectStackDriftCommandOutput`; `StackDriftDetectionId` is
optional in the SDK type. -/
structure DetectOutput where
  StackDriftDetectionId : Option String
deriving Repr, DecidableEq

/-- Outcomes of the external calls the initiator makes, each made at
most once per invocation: the `describeStacks` call, the
`detectStackDrift` call, and the DynamoDB `putItem` call (whose thrown
error, if any, is all the handler observes). -/
structure Env where
  describeStacks : Except JsError DescribeStacksOutput
  detectStackDrift : Except JsError DetectOutput
  putItemResult : Except JsError Unit
deriving Repr

/-- `allowed_dd_status_list`. -/
def allowed_dd_status_list : List String :=
  ["CREATE_COMPLETE", "UPDATE_COMPLETE", "UPDATE_ROLLBACK_COMPLETE",
    "UPDATE_ROLLBACK_FAILED"]

/-- `Stacks[0].StackStatus && allowed_dd_status_list.includes(...)`:
an absent status is falsy and fails the guard. -/
def statusAllowed (s : StackInfo) : Bool :=
  match s.StackStatus with
  | some st => st ∈ allowed_dd_status_list
  | none => false

/-- The `pk` written by the initiator:
`` `${params.account}#${params.region}#${params.stackName}` ``. -/
def targetPk (params : UserParams) : String :=
  params.account ++ "#" ++ params.region ++ "#" ++ params.stackName

/-- `new Error('Unknown error: Check DescribeStacks output')` thrown
when the `DescribeStacks` output has no stack or a first stack whose
name differs from the requested one. -/
def unknownDescribeErr : JsError :=
  jsNewError "Unknown error: Check DescribeStacks output"

/-- `new Error('Unknown error: Drift detection id missing')` thrown
when the drift response carries no (or an empty) detection id. -/
def driftIdMissingErr : JsError :=
  jsNewError "Unknown error: Drift detection id missing"

/-- How the try-block around stack inspection and `detectStackDrift`
ends: an early `sendSuccess`-and-return (status not allowed), a drift
response, or a thrown error handed to the catch. -/
inductive Phase2 where
  | earlySuccess
  | gotDrift (d : DetectOutput)
  | threw (e : JsError)

/-- The scan-initiator handler. Returns the pipeline callbacks it sends
(in order) and the resulting store. Structure mirrors the source: the
`describeStacks` try/catch, then the stack-inspection/`detectStackDrift`
try/catch (where a failed `Stacks` guard throws `unknownDescribeErr`),
then the DynamoDB try/catch (where a falsy — absent or empty —
`StackDriftDetectionId` throws `driftIdMissingErr`). -/
def handler (env : Env) (jobId : String) (params : UserParams)
    (store : Store) : List Callback × Store :=
  match env.describeStacks with
  | .error err =>
    if err.isValidationError then
      ([Callback.success jobId], store)
    else
      ([Callback.failure jobId (stringifyErr err)], store)
  | .ok stacksOutput =>
    let phase2 : Phase2 :=
      match stacksOutput.Stacks with
      | some (s :: _) =>
        if s.StackName == some params.stackName then
          if statusAllowed s then
            match env.detectStackDrift with
            | .ok d => Phase2.gotDrift d
            | .error e => Phase2.threw e
          else
            Phase2.earlySuccess
        else
          Phase2.threw unknownDescribeErr
      | _ => Phase2.threw unknownDescribeErr
    match phase2 with
    | .earlySuccess => ([Callback.success jobId], store)
    | .threw e =>
      if e.isValidationError then
        ([Callback.success jobId], store)
      else
        ([Callback.failure jobId (stringifyErr e)], store)
    | .gotDrift driftResp =>
      match driftResp.StackDriftDetectionId with
      | some sid =>
        if sid ≠ "" then
          match env.putItemResult with
          | .ok _ =>
            ([], putItem store
              { pk := targetPk params, sk := sid, pipeline_job_id := jobId })
          | .error e =>
            ([Callback.failure jobId (stringifyErr e)], store)
        else
          ([Callback.failure jobId (stringifyErr driftIdMissingErr)], store)
      | none =>
        ([Callback.failure jobId (stringifyErr driftIdMissingErr)], store)

end driftDetect

/-!
Concrete fixtures, used to instantiate theorems with hypotheses: the
sample ARN and event of the spec's examples, a one-record store, the
matching initiator parameters, and environments for the initiator's
paths (successful scan start, not-found error, missing detection id,
empty stack list).
-/
def exArn : String :=
  "arn:aws:cloudformation:ap-northeast-2:123456789012:stack/example-stack/11111111"

def exEventDrifted : callback.ScanEvent :=
  { detail_type := "CloudFormation Drift Detection Status Change",
    account := "123456789012", region := "ap-northeast-2",
    detail := { stack_id := exArn,
                stack_drift_detection_id := "scan-1",
                status_details := { stack_drift_status := "DRIFTED" } } }

def exEventOtherScan : callback.ScanEvent :=
  { exEventDrifted with
    detail := { exEventDrifted.detail with stack_drift_detection_id := "scan-2" } }

def exEventInSync : callback.ScanEvent :=
  { exEventDrifted with
    detail := { exEventDrifted.detail with
      status_details := { stack_drift_status := "IN_SYNC" } } }

def exEventWrongType : callback.ScanEvent :=
  { exEventDrifted with detail_type := "AWS API Call via CloudTrail" }

def exParams : driftDetect.UserParams :=
  { account := "123456789012", region := "ap-northeast-2", stackName := "example-stack" }

def exStackInfo : driftDetect.StackInfo :=
  { StackName := some "example-stack", StackStatus := some "CREATE_COMPLETE" }

def exStacksOutput : driftDetect.DescribeStacksOutput :=
  { Stacks := some [exStackInfo] }

def exEnvScan (sid : String) : driftDetect.Env :=
  { describeStacks := .ok exStacksOutput,
    detectStackDrift := .ok { StackDriftDetectionId := some sid },
    putItemResult := .ok () }

def exNotFoundErr : JsError :=
  { name := "ValidationError", code := none,
    message := "Stack with id example-stack does not exist" }

def exEnvNotFound : driftDetect.Env :=
  { describeStacks := .error exNotFoundErr,
    detectStackDrift := .ok { StackDriftDetectionId := some "scan-1" },
    putItemResult := .ok () }

def exEnvNoDriftId : driftDetect.Env :=
  { describeStacks := .ok exStacksOutput,
    detectStackDrift := .ok { StackDriftDetectionId := none },
    putItemResult := .ok () }

def exEnvEmptyStacks : driftDetect.Env :=
  { describeStacks := .ok { Stacks := some [] },
    detectStackDrift := .ok { StackDriftDetectionId := some "scan-1" },
    putItemResult := .ok () }

/-!
Helper lemmas about JavaScript-style splitting and the DynamoDB
store model, followed by the claim theorems.
-/
theorem splitChar_ne_nil (sep : Char) (l : List Char) : splitChar sep l ≠ [] := by
  cases l with
  | nil => simp [splitChar]
  | cons c cs =>
    simp only [splitChar]
    split
    · simp
    · split
      · simp
      · simp

theorem splitChar_append (sep : Char) (xs ys : List Char) :
    splitChar sep (xs ++ sep :: ys) = splitChar sep xs ++ splitChar sep ys := by
  induction xs with
  | nil => simp [splitChar]
  | cons c cs ih =>
    by_cases h : c = sep
    · subst h
      simp [splitChar, ih]
    · cases hcs : splitChar sep cs with
      | nil => exact absurd hcs (splitChar_ne_nil sep cs)
      | cons r rs =>
        simp only [List.cons_append, splitChar, if_neg h, List.append_eq, ih, hcs]

theorem splitChar_of_not_mem (sep : Char) (xs : List Char) (h : sep ∉ xs) :
    splitChar sep xs = [xs] := by
  induction xs with
  | nil => rfl
  | cons c cs ih =>
    simp only [List.mem_cons, not_or] at h
    have hc : ¬ c = sep := fun hh => h.1 hh.symm
    simp only [splitChar, if_neg hc, ih h.2]

theorem find?_filter_of_imp (p q : DdbItem → Bool)
    (h : ∀ x, p x = true → q x = true) (l : List DdbItem) :
    List.find? p (List.filter q l) = List.find? p l := by
  induction l with
  | nil => rfl
  | cons a l ih =>
    by_cases hq : q a = true
    · rw [List.filter_cons_of_pos hq]
      by_cases hp : p a = true
      · rw [List.find?_cons_of_pos _ hp, List.find?_cons_of_pos _ hp]
      · rw [List.find?_cons_of_neg _ (by simpa using hp),
          List.find?_cons_of_neg _ (by simpa using hp), ih]
    · have hp : ¬ p a = true := fun hpa => hq (h a hpa)
      rw [List.filter_cons_of_neg (by simpa using hq),
        List.find?_cons_of_neg _ (by simpa using hp), ih]

theorem getItem_putItem_self (s : Store) (it : DdbItem) :
    getItem (putItem s it) it.pk it.sk = some it := by
  simp [getItem, putItem, List.find?]

theorem getItem_putItem_ne (s : Store) (it : DdbItem) (pk sk : String)
    (h : ¬(pk = it.pk ∧ sk = it.sk)) :
    getItem (putItem s it) pk sk = getItem s pk sk := by
  simp only [getItem, putItem]
  rw [List.find?_cons_of_neg]
  · exact find?_filter_of_imp _ _ (fun x hx => by
      simp only [Bool.and_eq_true, beq_iff_eq] at hx
      simp only [Bool.not_eq_true', Bool.and_eq_false_iff, beq_eq_false_iff_ne, ne_eq]
      rcases hx with ⟨hxp, hxs⟩
      by_cases hpk : pk = it.pk
      · right
        rw [hxs]
        exact fun hsk => h ⟨hpk, hsk⟩
      · left
        rw [hxp]
        exact hpk) s
  · simp only [Bool.and_eq_true, beq_iff_eq, not_and]
    intro hpk hsk
    exact h ⟨hpk.symm, hsk.symm⟩

theorem putItem_overwrite (s : Store) (it1 it2 : DdbItem)
    (hpk : it1.pk = it2.pk) (hsk : it1.sk = it2.sk) :
    putItem (putItem s it1) it2 = putItem s it2 := by
  simp only [putItem, hpk, hsk]
  rw [List.filter_cons_of_neg (by simp [hpk, hsk])]
  rw [List.filter_filter]
  congr 1
  apply List.filter_congr
  intro x _
  exact (Bool.and_self _)

/-- On the fully successful path (stack found with matching name, allowed
status, scan started with a non-empty id, put succeeded) the initiator
sends no callback and performs exactly the one `putItem`. -/
theorem handler_success_write (env : driftDetect.Env) (jobId : String)
    (params : driftDetect.UserParams) (store : Store)
    (o : driftDetect.DescribeStacksOutput) (s : driftDetect.StackInfo)
    (rest : List driftDetect.StackInfo) (d : driftDetect.DetectOutput) (sid : String)
    (hd : env.describeStacks = .ok o) (hs : o.Stacks = some (s :: rest))
    (hn : s.StackName = some params.stackName) (ha : driftDetect.statusAllowed s = true)
    (hdet : env.detectStackDrift = .ok d) (hid : d.StackDriftDetectionId = some sid)
    (hne : sid ≠ "") (hput : env.putItemResult = .ok ()) :
    driftDetect.handler env jobId params store =
      ([], putItem store
        { pk := driftDetect.targetPk params, sk := sid, pipeline_job_id := jobId }) := by
  simp [driftDetect.handler, hd, hs, hn, ha, hdet, hid, hne, hput]

theorem unknownDescribeErr_not_validation :
    driftDetect.unknownDescribeErr.isValidationError = false := by decide

theorem driftIdMissingErr_not_validation :
    driftDetect.driftIdMissingErr.isValidationError = false := by decide

/-- Claim C8: the initiator never reads the correlation store, so the
pipeline callbacks it produces are identical across any two store
states; in particular a re-run after a prior benign resolution behaves
the same regardless of what the store holds. -/
theorem c8_initiate_store_independent (env : driftDetect.Env) (jobId : String)
    (params : driftDetect.UserParams) (s1 s2 : Store) :
    (driftDetect.handler env jobId params s1).1 = (driftDetect.handler env jobId params s2).1 := by
  obtain ⟨dsc, det, put⟩ := env
  cases dsc with
  | error e =>
    by_cases h : e.isValidationError = true <;> simp [driftDetect.handler, h]
  | ok o =>
    obtain ⟨stks⟩ := o
    cases stks with
    | none => simp [driftDetect.handler, unknownDescribeErr_not_validation]
    | some l =>
      cases l with
      | nil => simp [driftDetect.handler, unknownDescribeErr_not_validation]
      | cons s rest =>
        by_cases hn : s.StackName = some params.stackName
        · by_cases ha : driftDetect.statusAllowed s = true
          · cases det with
            | error e =>
              by_cases hv : e.isValidationError = true <;>
                simp [driftDetect.handler, hn, ha, hv]
            | ok d =>
              obtain ⟨sid0⟩ := d
              cases sid0 with
              | none => simp [driftDetect.handler, hn, ha]
              | some sid =>
                by_cases hsid : sid = ""
                · simp [driftDetect.handler, hn, ha, hsid]
                · cases put with
                  | error e => simp [driftDetect.handler, hn, ha, hsid]
                  | ok u => simp [driftDetect.handler, hn, ha, hsid]
          · simp [driftDetect.handler, hn, ha]
        · simp [driftDetect.handler, hn, unknownDescribeErr_not_validation]

/-- Claim C1: for an inbound event of the expected drift-status-change
category whose correlation lookup finds a record (a non-empty
`pipeline_job_id`, which is what the handler's `if (jobId)` truthiness
check accepts), the handler reports failure exactly once with a message
naming the target and containing DRIFTED when the status is DRIFTED,
reports success exactly once with that job id when the status is
IN_SYNC, and makes no pipeline callback for any other status value. -/
theorem c1_completion_dispatch (ev : callback.ScanEvent) (store : Store) (j : String)
    (hm : ev.detail_type = "CloudFormation Drift Detection Status Change")
    (hf : callback.fetchCallbackDetails ev store = some j) (hj : j ≠ "") :
    (ev.detail.status_details.stack_drift_status = "DRIFTED" →
      callback.handler ev store =
        ([Callback.failure j ("Stack " ++ ev.detail.stack_id ++
            " has DRIFTED from its template configuration")], store))
    ∧ (ev.detail.status_details.stack_drift_status = "IN_SYNC" →
      callback.handler ev store = ([Callback.success j], store))
    ∧ (ev.detail.status_details.stack_drift_status ≠ "DRIFTED" →
       ev.detail.status_details.stack_drift_status ≠ "IN_SYNC" →
      callback.handler ev store = ([], store)) := by
  refine ⟨fun h1 => ?_, fun h2 => ?_, fun h1 h2 => ?_⟩
  · simp [callback.handler, hm, hf, hj, h1]
  · simp [callback.handler, hm, hf, hj, h2]
  · simp [callback.handler, hm, hf, hj, h1, h2]

/-- Claim C6: an event whose category is not the expected
drift-status-change category, or one whose correlation lookup errors or
finds no record (both leave the looked-up job id undefined), produces
no pipeline callback and no store write. -/
theorem c6_unmatched_discard (ev : callback.ScanEvent) (store : Store)
    (h : ev.detail_type ≠ "CloudFormation Drift Detection Status Change"
       ∨ callback.fetchCallbackDetails ev store = none) :
    callback.handler ev store = ([], store) := by
  rcases h with h | h
  · simp [callback.handler, h]
  · by_cases hm : ev.detail_type = "CloudFormation Drift Detection Status Change"
    · simp [callback.handler, hm, h]
    · simp [callback.handler, hm]

/-- Claim C2: when the scan start succeeds with a non-empty scan
identifier and the store write succeeds, the initiator writes exactly
one correlation record whose partition key is the composite string
`account#region#stackName`, holding that scan identifier (as the sort
key) and the invoking job id, and makes no pipeline callback in the
invocation. -/
theorem c2_initiate_success_write (env : driftDetect.Env) (jobId : String)
    (params : driftDetect.UserParams) (store : Store)
    (o : driftDetect.DescribeStacksOutput) (s : driftDetect.StackInfo)
    (rest : List driftDetect.StackInfo) (d : driftDetect.DetectOutput) (sid : String)
    (hd : env.describeStacks = .ok o) (hs : o.Stacks = some (s :: rest))
    (hn : s.StackName = some params.stackName) (ha : driftDetect.statusAllowed s = true)
    (hdet : env.detectStackDrift = .ok d) (hid : d.StackDriftDetectionId = some sid)
    (hne : sid ≠ "") (hput : env.putItemResult = .ok ()) :
    driftDetect.handler env jobId params store =
      ([], putItem store
        { pk := params.account ++ "#" ++ params.region ++ "#" ++ params.stackName,
          sk := sid, pipeline_job_id := jobId })
    ∧ getItem (driftDetect.handler env jobId params store).2
        (params.account ++ "#" ++ params.region ++ "#" ++ params.stackName) sid
      = some { pk := params.account ++ "#" ++ params.region ++ "#" ++ params.stackName,
               sk := sid, pipeline_job_id := jobId } := by
  have hw := handler_success_write env jobId params store o s rest d sid
    hd hs hn ha hdet hid hne hput
  refine ⟨hw, ?_⟩
  rw [hw]
  exact getItem_putItem_self store _

/-- Claim C3: under a benign condition — the target-state query fails
with a validation-style error, the first stack's lifecycle status is
outside the allowed set, or the scan start fails with a
validation-style error — the initiator reports success exactly once and
writes no correlation record. -/
theorem c3_benign_success (env : driftDetect.Env) (jobId : String)
    (params : driftDetect.UserParams) (store : Store)
    (h : (∃ e, env.describeStacks = .error e ∧ e.isValidationError = true)
       ∨ (∃ o s rest, env.describeStacks = .ok o ∧ o.Stacks = some (s :: rest)
            ∧ s.StackName = some params.stackName ∧ driftDetect.statusAllowed s = false)
       ∨ (∃ o s rest e, env.describeStacks = .ok o ∧ o.Stacks = some (s :: rest)
            ∧ s.StackName = some params.stackName ∧ driftDetect.statusAllowed s = true
            ∧ env.detectStackDrift = .error e ∧ e.isValidationError = true)) :
    driftDetect.handler env jobId params store = ([Callback.success jobId], store) := by
  rcases h with ⟨e, hd, hv⟩ | ⟨o, s, rest, hd, hs, hn, ha⟩ | ⟨o, s, rest, e, hd, hs, hn, ha, hdet, hv⟩
  · simp [driftDetect.handler, hd, hv]
  · simp [driftDetect.handler, hd, hs, hn, ha]
  · simp [driftDetect.handler, hd, hs, hn, ha, hdet, hv]

/-- Claim C7: when the scan start succeeds but the response has no scan
identifier (absent or empty, both falsy), the initiator reports failure
exactly once with the descriptive missing-id message and writes no
correlation record. -/
theorem c7_missing_scan_id_failure (env : driftDetect.Env) (jobId : String)
    (params : driftDetect.UserParams) (store : Store)
    (o : driftDetect.DescribeStacksOutput) (s : driftDetect.StackInfo)
    (rest : List driftDetect.StackInfo) (d : driftDetect.DetectOutput)
    (hd : env.describeStacks = .ok o) (hs : o.Stacks = some (s :: rest))
    (hn : s.StackName = some params.stackName) (ha : driftDetect.statusAllowed s = true)
    (hdet : env.detectStackDrift = .ok d)
    (hid : d.StackDriftDetectionId = none ∨ d.StackDriftDetectionId = some "") :
    driftDetect.handler env jobId params store =
      ([Callback.failure jobId (stringifyErr driftDetect.driftIdMissingErr)], store) := by
  rcases hid with hid | hid
  · simp [driftDetect.handler, hd, hs, hn, ha, hdet, hid]
  · simp [driftDetect.handler, hd, hs, hn, ha, hdet, hid]

/-- Claim C10: when the state query succeeds but returns an absent or
empty stack list, or a first stack whose name is not the requested
target name, the initiator reports failure (with the serialized
`Unknown error: Check DescribeStacks output` error) rather than
success, and writes no correlation record. -/
theorem c10_describe_mismatch_failure (env : driftDetect.Env) (jobId : String)
    (params : driftDetect.UserParams) (store : Store)
    (o : driftDetect.DescribeStacksOutput)
    (hd : env.describeStacks = .ok o)
    (h : o.Stacks = none ∨ o.Stacks = some []
       ∨ (∃ s rest, o.Stacks = some (s :: rest) ∧ s.StackName ≠ some params.stackName)) :
    driftDetect.handler env jobId params store =
      ([Callback.failure jobId (stringifyErr driftDetect.unknownDescribeErr)], store) := by
  rcases h with hs | hs | ⟨s, rest, hs, hn⟩
  · simp [driftDetect.handler, hd, hs, unknownDescribeErr_not_validation]
  · simp [driftDetect.handler, hd, hs, unknownDescribeErr_not_validation]
  · simp [driftDetect.handler, hd, hs, hn, unknownDescribeErr_not_validation]

def exStore : Store :=
  [{ pk := "123456789012#ap-northeast-2#example-stack", sk := "scan-1",
     pipeline_job_id := "job-42" }]

/-- Claim C9: for a well-formed identifier
`<prefix>:stack/<name>/<suffix>` the name extraction returns the second
slash-delimited segment of the last colon-delimited segment; in
particular `example-stack` for the sample ARN. -/
theorem c9_extract_stack_name :
    (∀ pfx name sfx : String, ':' ∉ name.data → '/' ∉ name.data → ':' ∉ sfx.data →
      callback.extractStackNameFromArn (pfx ++ ":stack/" ++ name ++ "/" ++ sfx) = some name)
    ∧ callback.extractStackNameFromArn
        "arn:aws:cloudformation:ap-northeast-2:123456789012:stack/example-stack/11111111"
      = some "example-stack" := by
  constructor
  · intro pfx name sfx h1 h2 h3
    have hlit : (":stack/" : String).data = [':', 's', 't', 'a', 'c', 'k', '/'] := rfl
    have hslash : ("/" : String).data = ['/'] := rfl
    have hdata : (pfx ++ ":stack/" ++ name ++ "/" ++ sfx).data
        = pfx.data ++ ':' :: ('s' :: 't' :: 'a' :: 'c' :: 'k' :: '/' ::
            (name.data ++ '/' :: sfx.data)) := by
      simp [String.data_append, hlit, hslash]
    have htail : ':' ∉ ('s' :: 't' :: 'a' :: 'c' :: 'k' :: '/' ::
        (name.data ++ '/' :: sfx.data)) := by
      simp only [List.mem_cons, List.mem_append, not_or]
      exact ⟨by decide, by decide, by decide, by decide, by decide, by decide,
        h1, by decide, h3⟩
    simp only [callback.extractStackNameFromArn, jsSplit, hdata]
    rw [splitChar_append, splitChar_of_not_mem _ _ htail]
    rw [List.map_append]
    simp only [List.map_cons, List.map_nil]
    rw [List.getLast?_concat]
    show ((splitChar '/' (String.mk _).data).map String.mk).get? 1 = some name
    rw [show (String.mk ('s' :: 't' :: 'a' :: 'c' :: 'k' :: '/' ::
        (name.data ++ '/' :: sfx.data))).data
        = ['s', 't', 'a', 'c', 'k'] ++ '/' :: (name.data ++ '/' :: sfx.data) from rfl]
    rw [splitChar_append, splitChar_append, splitChar_of_not_mem _ _ h2]
    rw [show splitChar '/' ['s', 't', 'a', 'c', 'k'] = [['s', 't', 'a', 'c', 'k']] from by decide]
    simp
  · decide

/-- Witness for C9 at the sample ARN, split into its three parts. -/
theorem c9_extract_stack_name_witness :
    callback.extractStackNameFromArn
      ("arn:aws:cloudformation:ap-northeast-2:123456789012" ++ ":stack/" ++
        "example-stack" ++ "/" ++ "11111111")
      = some "example-stack" :=
  c9_extract_stack_name.1 "arn:aws:cloudformation:ap-northeast-2:123456789012"
    "example-stack" "11111111" (by decide) (by decide) (by decide)

/-- Claim C4 counterexample: two events that differ only in their
`stack-drift-detection-id` do NOT resolve to the same correlation
record, and produce different pipeline callbacks — the lookup's
DynamoDB key includes the scan identifier as the sort key. -/
theorem c4_lookup_scan_id_counterexample :
    exEventDrifted.detail_type = exEventOtherScan.detail_type
    ∧ exEventDrifted.account = exEventOtherScan.account
    ∧ exEventDrifted.region = exEventOtherScan.region
    ∧ exEventDrifted.detail.stack_id = exEventOtherScan.detail.stack_id
    ∧ exEventDrifted.detail.status_details = exEventOtherScan.detail.status_details
    ∧ exEventDrifted.detail.stack_drift_detection_id
        ≠ exEventOtherScan.detail.stack_drift_detection_id
    ∧ callback.fetchCallbackDetails exEventDrifted exStore
        ≠ callback.fetchCallbackDetails exEventOtherScan exStore
    ∧ (callback.handler exEventDrifted exStore).1
        ≠ (callback.handler exEventOtherScan exStore).1 := by
  decide

/-- Claim C4 (amended): the correlation lookup depends exactly on the
event's account, region, parsed stack name and scan identifier — two
events agreeing on those four resolve to the same correlation
record. -/
theorem c4_lookup_key_amended (ev1 ev2 : callback.ScanEvent) (store : Store)
    (ha : ev1.account = ev2.account) (hr : ev1.region = ev2.region)
    (hn : callback.extractStackNameFromArn ev1.detail.stack_id
        = callback.extractStackNameFromArn ev2.detail.stack_id)
    (hsk : ev1.detail.stack_drift_detection_id = ev2.detail.stack_drift_detection_id) :
    callback.fetchCallbackDetails ev1 store = callback.fetchCallbackDetails ev2 store := by
  simp only [callback.fetchCallbackDetails, ha, hr, hn, hsk]

/-- Witness for the amended C4: a DRIFTED and an IN_SYNC event with the
same lookup key resolve identically. -/
theorem c4_lookup_key_amended_witness :
    callback.fetchCallbackDetails exEventDrifted exStore
      = callback.fetchCallbackDetails exEventInSync exStore :=
  c4_lookup_key_amended exEventDrifted exEventInSync exStore rfl rfl rfl rfl

/-- Claim C5 counterexample: two successful initiate invocations for
the same target with distinct scan identifiers leave TWO records for
that targetKey, not one. -/
theorem c5_single_record_counterexample :
    (driftDetect.handler (exEnvScan "scan-1") "job-1" exParams []).1 = []
    ∧ (driftDetect.handler (exEnvScan "scan-2") "job-2" exParams
        (driftDetect.handler (exEnvScan "scan-1") "job-1" exParams []).2).1 = []
    ∧ (List.filter (fun it => it.pk == driftDetect.targetPk exParams)
        (driftDetect.handler (exEnvScan "scan-2") "job-2" exParams
          (driftDetect.handler (exEnvScan "scan-1") "job-1" exParams []).2).2).length = 2 := by
  decide

/-- Claim C5 (amended): records are keyed by (targetKey, scanId): a
second successful initiate for the same target overwrites the first
exactly when the scan identifiers coincide; with distinct scan
identifiers both records coexist, each holding its own scan id and job
id. -/
theorem c5_overwrite_amended (env1 env2 : driftDetect.Env) (jobId1 jobId2 : String)
    (params : driftDetect.UserParams) (store : Store)
    (o1 : driftDetect.DescribeStacksOutput) (s1 : driftDetect.StackInfo)
    (rest1 : List driftDetect.StackInfo) (d1 : driftDetect.DetectOutput) (sid1 : String)
    (o2 : driftDetect.DescribeStacksOutput) (s2 : driftDetect.StackInfo)
    (rest2 : List driftDetect.StackInfo) (d2 : driftDetect.DetectOutput) (sid2 : String)
    (hd1 : env1.describeStacks = .ok o1) (hs1 : o1.Stacks = some (s1 :: rest1))
    (hn1 : s1.StackName = some params.stackName) (ha1 : driftDetect.statusAllowed s1 = true)
    (hdet1 : env1.detectStackDrift = .ok d1) (hid1 : d1.StackDriftDetectionId = some sid1)
    (hne1 : sid1 ≠ "") (hput1 : env1.putItemResult = .ok ())
    (hd2 : env2.describeStacks = .ok o2) (hs2 : o2.Stacks = some (s2 :: rest2))
    (hn2 : s2.StackName = some params.stackName) (ha2 : driftDetect.statusAllowed s2 = true)
    (hdet2 : env2.detectStackDrift = .ok d2) (hid2 : d2.StackDriftDetectionId = some sid2)
    (hne2 : sid2 ≠ "") (hput2 : env2.putItemResult = .ok ()) :
    (sid1 = sid2 →
      (driftDetect.handler env2 jobId2 params
          (driftDetect.handler env1 jobId1 params store).2).2
        = putItem store
            { pk := driftDetect.targetPk params, sk := sid2, pipeline_job_id := jobId2 })
    ∧ (sid1 ≠ sid2 →
      getItem (driftDetect.handler env2 jobId2 params
          (driftDetect.handler env1 jobId1 params store).2).2
          (driftDetect.targetPk params) sid1
        = some { pk := driftDetect.targetPk params, sk := sid1, pipeline_job_id := jobId1 }
      ∧ getItem (driftDetect.handler env2 jobId2 params
          (driftDetect.handler env1 jobId1 params store).2).2
          (driftDetect.targetPk params) sid2
        = some { pk := driftDetect.targetPk params, sk := sid2, pipeline_job_id := jobId2 }) := by
  have hw1 := handler_success_write env1 jobId1 params store o1 s1 rest1 d1 sid1
    hd1 hs1 hn1 ha1 hdet1 hid1 hne1 hput1
  have hw2 := handler_success_write env2 jobId2 params
    (driftDetect.handler env1 jobId1 params store).2 o2 s2 rest2 d2 sid2
    hd2 hs2 hn2 ha2 hdet2 hid2 hne2 hput2
  constructor
  · intro heq
    rw [hw2, hw1]
    exact putItem_overwrite store _ _ rfl heq
  · intro hne
    rw [hw2, hw1]
    constructor
    · rw [getItem_putItem_ne _ _ _ _ (by simp [hne])]
      exact getItem_putItem_self store _
    · exact getItem_putItem_self _ _

/-- Witness for the amended C5 in the distinct-scan-id case. -/
theorem c5_overwrite_amended_witness :
    getItem (driftDetect.handler (exEnvScan "scan-2") "job-2" exParams
        (driftDetect.handler (exEnvScan "scan-1") "job-1" exParams []).2).2
      (driftDetect.targetPk exParams) "scan-1"
      = some { pk := driftDetect.targetPk exParams, sk := "scan-1", pipeline_job_id := "job-1" }
    ∧ getItem (driftDetect.handler (exEnvScan "scan-2") "job-2" exParams
        (driftDetect.handler (exEnvScan "scan-1") "job-1" exParams []).2).2
      (driftDetect.targetPk exParams) "scan-2"
      = some { pk := driftDetect.targetPk exParams, sk := "scan-2", pipeline_job_id := "job-2" } :=
  (c5_overwrite_amended (exEnvScan "scan-1") (exEnvScan "scan-2") "job-1" "job-2" exParams []
    exStacksOutput exStackInfo [] { StackDriftDetectionId := some "scan-1" } "scan-1"
    exStacksOutput exStackInfo [] { StackDriftDetectionId := some "scan-2" } "scan-2"
    rfl rfl rfl (by decide) rfl rfl (by decide) rfl
    rfl rfl rfl (by decide) rfl rfl (by decide) rfl).2 (by decide)

/-- Witness for C1: the spec's DRIFTED example event against the
matching one-record store. -/
theorem c1_completion_dispatch_witness :
    callback.handler exEventDrifted exStore
      = ([Callback.failure "job-42" ("Stack " ++ exEventDrifted.detail.stack_id ++
          " has DRIFTED from its template configuration")], exStore) :=
  (c1_completion_dispatch exEventDrifted exStore "job-42" rfl (by decide) (by decide)).1 rfl

/-- Witness for C2: a successful scan start against an empty store. -/
theorem c2_initiate_success_write_witness :
    driftDetect.handler (exEnvScan "scan-1") "job-1" exParams []
      = ([], putItem []
        { pk := exParams.account ++ "#" ++ exParams.region ++ "#" ++ exParams.stackName,
          sk := "scan-1", pipeline_job_id := "job-1" })
    ∧ getItem (driftDetect.handler (exEnvScan "scan-1") "job-1" exParams []).2
        (exParams.account ++ "#" ++ exParams.region ++ "#" ++ exParams.stackName) "scan-1"
      = some { pk := exParams.account ++ "#" ++ exParams.region ++ "#" ++ exParams.stackName,
               sk := "scan-1", pipeline_job_id := "job-1" } :=
  c2_initiate_success_write (exEnvScan "scan-1") "job-1" exParams []
    exStacksOutput exStackInfo [] { StackDriftDetectionId := some "scan-1" } "scan-1"
    rfl rfl rfl (by decide) rfl rfl (by decide) rfl

/-- Witness for C3: the target-state query fails with a not-found
validation error. -/
theorem c3_benign_success_witness :
    driftDetect.handler exEnvNotFound "job-7" exParams [] = ([Callback.success "job-7"], []) :=
  c3_benign_success exEnvNotFound "job-7" exParams []
    (Or.inl ⟨_, rfl, by decide⟩)

/-- Witness for C6: an event of an unexpected category. -/
theorem c6_unmatched_discard_witness :
    callback.handler exEventWrongType exStore = ([], exStore) :=
  c6_unmatched_discard exEventWrongType exStore (Or.inl (by decide))

/-- Witness for C7: a drift response with an absent detection id. -/
theorem c7_missing_scan_id_failure_witness :
    driftDetect.handler exEnvNoDriftId "job-1" exParams []
      = ([Callback.failure "job-1" (stringifyErr driftDetect.driftIdMissingErr)], []) :=
  c7_missing_scan_id_failure exEnvNoDriftId "job-1" exParams []
    exStacksOutput exStackInfo [] { StackDriftDetectionId := none }
    rfl rfl rfl (by decide) rfl (Or.inl rfl)

/-- Witness for C10: a DescribeStacks output with an empty stack
list. -/
theorem c10_describe_mismatch_failure_witness :
    driftDetect.handler exEnvEmptyStacks "job-1" exParams []
      = ([Callback.failure "job-1" (stringifyErr driftDetect.unknownDescribeErr)], []) :=
  c10_describe_mismatch_failure exEnvEmptyStacks "job-1" exParams []
    { Stacks := some [] } rfl (Or.inr (Or.inl rfl))
